import Mathlib

/-!
Shallow embedding of the react-to-static-html plugin core
(route tables, layout resolution, composition, build entrypoints,
request resolution, environment-driven behavior), translated from the
TypeScript source of the repository.  JavaScript strings are modelled as
Lean `String`; the character-level helpers below reproduce the JS string
operations (`split`, `endsWith`) the source uses, since those must be
executable on concrete inputs.
-/

/-- Model of the JavaScript `s.split(sep)` for a one-character separator,
as used by `pathname.split("/")` and `filePath.split(".")` in the source. -/
def jsSplitChar (sep : Char) (s : String) : List String :=
  (s.toList.splitOn sep).map (fun cs => String.mk cs)

/-- Model of the JavaScript `s.endsWith(t)`, as used by the layout-file
checks `filePath.endsWith("layout.tsx")` in the source: the characters
of `t` are a suffix of the characters of `s`. -/
def strEndsWith (s t : String) : Bool :=
  decide (t.toList <:+ s.toList)

/-- Modelled from the external `frame-master/utils` join (imported as
`clientJoin` in the source): joins two pathname pieces with a single
slash, dropping an empty piece.  The source relies on exactly
`clientJoin "" x = x` and `clientJoin a b = a ++ "/" ++ b` for nonempty
pieces when assembling layout probe paths. -/
def clientJoin (a b : String) : String :=
  if a = "" then b else if b = "" then a else a ++ "/" ++ b

/-- Left fold of `clientJoin` over a list of segments, the path a chain of
`clientJoin` accumulations produces (used to state the layout-resolver
invariant). -/
def joinSegs (segs : List String) : String :=
  List.foldl clientJoin "" segs

/-- Recursive worker for splitting a character list on a nonempty sublist
separator; models the JavaScript `s.split(sep)` with a multi-character
separator (used by `filePath.split(srcDir)` in the variant-2 build
config).  Structural recursion on a fuel argument keeps the function
kernel-reducible; the wrapper supplies fuel covering the whole input. -/
def splitOnSubGo (sep : List Char) : Nat → List Char → List (List Char)
  | _, [] => [[]]
  | 0, l => [l]
  | fuel + 1, x :: xs =>
    if (x :: xs).take sep.length = sep then
      [] :: splitOnSubGo sep fuel ((x :: xs).drop sep.length)
    else
      match splitOnSubGo sep fuel xs with
      | [] => [[x]]
      | c :: cs => (x :: c) :: cs

/-- Model of the JavaScript `s.split(sep)` for a string separator.
An empty separator splits into single characters, as in JS. -/
def jsSplitStr (sep s : String) : List String :=
  if sep.toList.length = 0 then s.toList.map (fun c => String.mk [c])
  else (splitOnSubGo sep.toList s.toList.length s.toList).map
    (fun cs => String.mk cs)

/-! ## Content type by extension (`filePathToMimeType`, source lines 20-41) -/

/-- Translation of `filePathToMimeType`: take the last `"."`-separated
piece of the path (`filePath.split(".").pop()`) and switch on it. -/
def filePathToMimeType (filePath : String) : String :=
  let e := (jsSplitChar '.' filePath).getLastD ""
  if e = "html" then "text/html"
  else if e = "js" then "application/javascript"
  else if e = "css" then "text/css"
  else if e = "json" then "application/json"
  else if e = "png" then "image/png"
  else if e = "jpg" then "image/jpeg"
  else if e = "jpeg" then "image/jpeg"
  else if e = "svg" then "image/svg+xml"
  else "application/octet-stream"

/-- The content-type-by-extension table exactly as the specification
states it, as an association list. -/
def mimeTableSpec : List (String × String) :=
  [("html", "text/html"), ("js", "application/javascript"),
   ("css", "text/css"), ("json", "application/json"),
   ("png", "image/png"), ("jpg", "image/jpeg"), ("jpeg", "image/jpeg"),
   ("svg", "image/svg+xml")]

/-- Specification-side content type of an extension: look the extension up
in the table, defaulting to `application/octet-stream` for every other
extension. -/
def mimeOfExtSpec (e : String) : String :=
  ((mimeTableSpec.lookup e).getD "application/octet-stream")

/-! ## Environment-driven behavior (source lines 43-47 and 194-203) -/

/-- Translation of `toDevImportPath`: in production mode the module path
is returned unchanged, otherwise a cache-busting query suffix
`?t=<now>` is appended (`Date.now()` modelled as an explicit argument). -/
def toDevImportPath (isProd : Bool) (now : Nat) (path : String) : String :=
  if isProd then path else path ++ "?t=" ++ toString now

/-- Translation of the variant-1 `onLoad` emission step: in production the
rendered markup is emitted as is, otherwise it is passed through the
external pretty-printer (modelled as an arbitrary function argument). -/
def emitPageContents (isProd : Bool) (prettify : String → String)
    (strContent : String) : String :=
  if isProd then strContent else prettify strContent

/-! ## Layout composition (source lines 171-196 and 485-511)

Page, layout and shell content is modelled over an arbitrary type `α`;
a wrap capability (a layout applied to children, or the shell) is a
function `α → α`.  Both variants receive the layout chain root-first and
reverse it before folding. -/

/-- Translation of variant 1: `layouts.reduce((Prev, Curr) =>
Curr({children: Prev}), pageComponent())` where `layouts` is the
root-first chain after `.reverse()`. -/
def PageWrappedInLayouts {α : Type _} (page : α) (chain : List (α → α)) : α :=
  List.foldl (fun Prev Curr => Curr Prev) page chain.reverse

/-- Explicit recursion mirroring the variant-2 `for await` loop body:
`currentElement = await Wrapper({wrapperPath: layoutPath, children:
currentElement, ...})`. -/
def wrapForLoop {α : Type _} (cur : α) : List (α → α) → α
  | [] => cur
  | l :: rest => wrapForLoop (l cur) rest

/-- Translation of variant 2: the loop runs over the reversed root-first
chain, seeded with the page element. -/
def currentElement {α : Type _} (page : α) (chain : List (α → α)) : α :=
  wrapForLoop page chain.reverse

/-- Variant-1 final markup source: `Shell({children: PageWrappedInLayouts})`. -/
def composedMarkupV1 {α : Type _} (shell : α → α) (page : α)
    (chain : List (α → α)) : α :=
  shell (PageWrappedInLayouts page chain)

/-- Variant-2 final markup source: `Shell({children: currentElement})`. -/
def composedMarkupV2 {α : Type _} (shell : α → α) (page : α)
    (chain : List (α → α)) : α :=
  shell (currentElement page chain)

/-- Specification-side nesting: the root-first chain applied so that the
first (root) layout is the outermost wrapper and the last (leaf) layout
the innermost, around the raw page content. -/
def nestRootFirstSpec {α : Type _} (chain : List (α → α)) (page : α) : α :=
  List.foldr (fun l acc => l acc) page chain

/-! ## Layout resolver (`getRelatedLayoutsMatchForPathname`, source lines 90-111)

The source route table is abstracted as the match capability
`mtch : String → Option ρ` it is probed through (`srcFileRouter.match`),
with `ρ` the matched-route payload. -/

/-- Segment extraction: `pathname ? pathname.split("/").filter(Boolean) : []`. -/
def segsOfPathname (pathname : String) : List String :=
  if pathname = "" then []
  else (jsSplitChar '/' pathname).filter (fun s => !(s == ""))

/-- The loop body of `getRelatedLayoutsMatchForPathname`: walk the
segments keeping the accumulated `currentPathname`, probe
`"/" ++ clientJoin testPathname "layout"` at each step, and keep the
matches in probe order. -/
def layoutProbeLoop {ρ : Type _} (mtch : String → Option ρ) :
    String → List String → List ρ
  | _, [] => []
  | currentPathname, p :: rest =>
    let testPathname := clientJoin currentPathname p
    match mtch ("/" ++ clientJoin testPathname "layout") with
    | some m => m :: layoutProbeLoop mtch testPathname rest
    | none => layoutProbeLoop mtch testPathname rest

/-- Translation of `getRelatedLayoutsMatchForPathname`: probe the table
root (`match("/layout")`) first, return early when there are no
segments, otherwise append the loop matches. -/
def getRelatedLayoutsMatchForPathname {ρ : Type _}
    (mtch : String → Option ρ) (pathname : String) : List ρ :=
  let paths := segsOfPathname pathname
  let relatedLayouts : List ρ :=
    match mtch "/layout" with
    | some r => [r]
    | none => []
  if paths = [] then relatedLayouts
  else relatedLayouts ++ layoutProbeLoop mtch "" paths

/-- The probe path for a leading run of segments: the root probe
`"/layout"` for the empty run, `"/" ++ run ++ "/layout"` otherwise. -/
def layoutProbePath (pre : List String) : String :=
  "/" ++ clientJoin (joinSegs pre) "layout"

/-- Specification-side layout resolution: probe every leading run of the
segment sequence from shortest (the table root) to longest, keep the
matches in probe order, and silently omit probes that find nothing. -/
def layoutsForSpec {ρ : Type _} (mtch : String → Option ρ)
    (pathname : String) : List ρ :=
  let segs := segsOfPathname pathname
  List.filterMap mtch
    ((List.range (segs.length + 1)).map (fun i => layoutProbePath (segs.take i)))

/-! ## Source route table model (C4, C5)

`srcFileRouter` is a `Bun.FileSystemRouter` in `"nextjs"` style over the
source directory.  For the plain (non-dynamic) files this repository
deals in, that router maps every recognized source file to a pathname:
directory-per-segment, an `index` basename mapping to the directory
itself, every other basename (including `layout`) appending its own
segment.  The plugin depends on layout files being present in this
table: `srcFileRouter.match("/layout")` (line 94) must find the root
layout file for the layout resolver to return anything, and the
variant-2 build config filters `layout.tsx` / `layout.jsx` values back
out of `srcFileRouter.routes`. -/

/-- A source file beneath the scanned directory: directory segments,
basename, and extension. -/
structure SrcFile where
  dirs : List String
  base : String
  fext : String
deriving DecidableEq

/-- The pathname the nextjs-style file-system router derives for a file:
an `index` basename maps to its directory, any other basename appends
its own segment. -/
def routePathnameOf (f : SrcFile) : String :=
  "/" ++ joinSegs (if f.base = "index" then f.dirs else f.dirs ++ [f.base])

/-- The absolute source path of a file beneath the scanned root. -/
def srcFilePathOf (srcRoot : String) (f : SrcFile) : String :=
  srcRoot ++ "/" ++ joinSegs (f.dirs ++ [f.base ++ "." ++ f.fext])

/-- The `srcFileRouter.routes` mapping: one entry per recognized source
file, keyed by derived pathname. -/
def srcFileRouterRoutes (srcRoot : String) (fs : List SrcFile) :
    List (String × String) :=
  fs.map (fun f => (routePathnameOf f, srcFilePathOf srcRoot f))

/-- The `srcFileRouter.match` capability over the modelled table. -/
def srcFileRouterMatch (srcRoot : String) (fs : List SrcFile)
    (pathname : String) : Option String :=
  ((srcFileRouterRoutes srcRoot fs).find? (fun e => e.1 == pathname)).map
    (fun e => e.2)

/-- A small concrete source tree: root index and layout, and an `about`
directory with its own index and layout. -/
def demoSrcFiles : List SrcFile :=
  [⟨[], "index", "tsx"⟩, ⟨[], "layout", "tsx"⟩,
   ⟨["about"], "index", "tsx"⟩, ⟨["about"], "layout", "tsx"⟩]

/-- Concrete scanned source root for the demo tree. -/
def demoSrcRoot : String := "/app/src/pages"

/-! ## Build entrypoints (C5; source lines 128-135, 153-161, 435-446) -/

/-- The placeholder entrypoint `join(PATH_TO_NORMALIZER_DIR, "normalizer.ts")`
appended by the variant-1 build config. -/
def normalizerEntrypoint : String := "_normalize_/normalizer.ts"

/-- The layout-file test used by both variants:
`endsWith("layout.tsx") || endsWith("layout.jsx")`. -/
def isLayoutSourceFile (fp : String) : Bool :=
  strEndsWith fp "layout.tsx" || strEndsWith fp "layout.jsx"

/-- Variant-1 entrypoints: every value of `srcFileRouter.routes`,
unfiltered, plus the normalizer placeholder. -/
def buildConfigEntrypointsV1 (routes : List (String × String)) :
    List String :=
  routes.map (fun e => e.2) ++ [normalizerEntrypoint]

/-- Variant-2 entrypoints: the route values with layout files filtered
out, each rewritten to its path after `srcDir`
(`filePath.split(srcDir).pop()`) tagged with `?entrypoint=true`. -/
def buildConfigEntrypointsV2 (srcDir : String)
    (routes : List (String × String)) : List String :=
  ((routes.map (fun e => e.2)).filter (fun fp => !(isLayoutSourceFile fp))).map
    (fun fp => (jsSplitStr srcDir fp).getLastD "" ++ "?entrypoint=true")

/-- The variant-1 `onLoad` layout short circuit: a path ending in the
reserved layout filename is loaded as the empty module
`{contents: "", loader: "js"}`; `none` means the handler falls through
to page rendering. -/
def onLoadLayoutShortCircuitV1 (path : String) : Option (String × String) :=
  if isLayoutSourceFile path then some ("", "js") else none

/-! ## Request resolver (`router.request`, source lines 273-299 and 534-565)

The response body is either streamed (`Bun.file(...).stream()` /
`file.stream()`) or passed whole (variant 1 hands the host the file
value itself, variant 2 its `arrayBuffer()`); both whole forms are
modelled by one constructor since the source distinguishes only
stream-versus-whole. -/

/-- A response body: a streamed artifact or a whole (buffered) artifact,
identified by its output path. -/
inductive RespBody where
  | streamOf (path : String)
  | wholeOf (path : String)
deriving DecidableEq

/-- The request/response object as the resolver observes and mutates it. -/
structure Req where
  pathname : String
  responseSet : Bool
  responseBody : Option RespBody
  contentType : Option String
  logPrevented : Bool
deriving DecidableEq

/-- The resolver environment: the output-route-table match capability,
the known build output paths, and the configured directories. -/
structure RouterCtx where
  fileRouterMatch : String → Option String
  outputs : List String
  cwd : String
  outDir : String

/-- Simplified model of the node `join` over slash-separated pieces, as
used in `join(cwd, outDir, pathname)`: concatenation with exactly one
slash between nonempty pieces. -/
def nodeJoin (a b : String) : String :=
  if a = "" then b
  else if b = "" then a
  else if b.toList.headD ' ' = '/' then a ++ b
  else a ++ "/" ++ b

/-- Translation of `router.request`: skip entirely when an upstream
handler already set a response; otherwise match the output route table
(streamed artifact, `text/html`), falling back to the build output whose
path exactly equals `join(cwd, outDir, pathname)` with its content type
derived by extension, streamed when HTML and whole otherwise; leave the
request untouched when neither lookup succeeds. -/
def requestHandler (ctx : RouterCtx) (req : Req) : Req :=
  if req.responseSet then req
  else
    let filePath := nodeJoin (nodeJoin ctx.cwd ctx.outDir) req.pathname
    match ctx.fileRouterMatch req.pathname with
    | some m =>
      { req with responseSet := true,
                 responseBody := some (RespBody.streamOf m),
                 contentType := some "text/html" }
    | none =>
      match ctx.outputs.find? (fun out => out == filePath) with
      | none => req
      | some f =>
        let mime := filePathToMimeType f
        { req with responseSet := true, logPrevented := true,
                   responseBody := some (if mime = "text/html"
                     then RespBody.streamOf f else RespBody.wholeOf f),
                   contentType := some mime }

/-- Specification-side resolution outcome: on an output-route-table match
the artifact is streamed with content type `text/html`; on no match the
fallback artifact whose output path exactly equals the computed
`outDir + pathname` is returned with its content type derived by
extension, streamed when that type is `text/html` and whole otherwise;
`none` is the not-found outcome deferred to the host. -/
def resolveSpec (ctx : RouterCtx) (pathname : String) :
    Option (RespBody × String) :=
  match ctx.fileRouterMatch pathname with
  | some m => some (RespBody.streamOf m, "text/html")
  | none =>
    match ctx.outputs.find?
        (fun out => out == nodeJoin (nodeJoin ctx.cwd ctx.outDir) pathname) with
    | none => none
    | some f =>
      let mime := filePathToMimeType f
      some ((if mime = "text/html" then RespBody.streamOf f
             else RespBody.wholeOf f), mime)

/-- Concrete resolver environment for witnesses: one routed page and one
raw output artifact. -/
def demoRouterCtx : RouterCtx where
  fileRouterMatch := fun p =>
    if p = "/about" then some "/app/out/about/index.html" else none
  outputs := ["/app/out/style.css"]
  cwd := "/app"
  outDir := "out"

/-- Concrete fresh request for the routed page. -/
def demoReq : Req :=
  ⟨"/about", false, none, none, false⟩

/-- Concrete request whose response an upstream handler already set. -/
def demoReqHandled : Req :=
  ⟨"/about", true, some (RespBody.streamOf "/elsewhere"), some "text/plain", false⟩

/-- Concrete fresh request matching nothing. -/
def demoReqMiss : Req :=
  ⟨"/missing", false, none, none, false⟩

/-! ## `usePath` (named utility variant, `src/utils.ts`) -/

/-- The JavaScript `path || "/"` step: `null` and the empty string are
falsy and yield the root pathname. -/
def jsOrRootPath (path : Option String) : String :=
  match path with
  | none => "/"
  | some s => if s = "" then "/" else s

/-- Translation of `usePath` from the named utility file: when the
context value is `null` and a browser window exists, return the window
location pathname; otherwise return `path || "/"`.  The window is
modelled as `Option String` carrying `window.location.pathname` when
defined. -/
def usePath (path : Option String) (windowPathname : Option String) :
    String :=
  match path, windowPathname with
  | none, some w => w
  | p, _ => jsOrRootPath p

/-! ## Helper lemmas -/

/-- The variant-2 wrap loop is the left fold of application. -/
theorem wrapForLoop_eq_foldl {α : Type _} (l : List (α → α)) (cur : α) :
    wrapForLoop cur l = List.foldl (fun a f => f a) cur l := by
  induction l generalizing cur with
  | nil => rfl
  | cons f fs ih => simp [wrapForLoop, ih]

/-- Folding `clientJoin` over one more segment. -/
theorem joinSegs_append_single (pre : List String) (p : String) :
    joinSegs (pre ++ [p]) = clientJoin (joinSegs pre) p := by
  simp [joinSegs, List.foldl_append]

/-! ## C1 and C3: composition -/

/-- C1: for every page content, root-first layout chain and shell, both
composition variants apply the layouts from leaf back toward root —
seeding with the raw page content, the layout nearest the page is the
innermost wrapper and the root layout the outermost of the layouts —
and apply the shell exactly once, outermost of all. -/
theorem C1_composition_leaf_to_root {α : Type _} (shell : α → α) (page : α)
    (chain : List (α → α)) :
    composedMarkupV1 shell page chain = shell (nestRootFirstSpec chain page) ∧
    composedMarkupV2 shell page chain = shell (nestRootFirstSpec chain page) := by
  constructor
  · simp [composedMarkupV1, PageWrappedInLayouts, nestRootFirstSpec,
      List.foldl_reverse]
  · simp [composedMarkupV2, currentElement, nestRootFirstSpec,
      wrapForLoop_eq_foldl, List.foldl_reverse]

/-- C3: with an empty layout chain both composition variants produce
exactly the shell applied to the raw page content. -/
theorem C3_empty_chain_shell_only {α : Type _} (shell : α → α) (page : α) :
    composedMarkupV1 shell page [] = shell page ∧
    composedMarkupV2 shell page [] = shell page :=
  ⟨rfl, rfl⟩

/-! ## C9: production mode flag -/

/-- C9: with the production flag set, module import paths are used
unchanged and rendered markup is emitted without pretty-printing; with
the flag absent, every dynamic module load path gets the cache-busting
query suffix appended. -/
theorem C9_production_flag (now : Nat) (path : String)
    (prettify : String → String) (strContent : String) :
    toDevImportPath true now path = path ∧
    emitPageContents true prettify strContent = strContent ∧
    toDevImportPath false now path = path ++ "?t=" ++ toString now :=
  ⟨rfl, rfl, rfl⟩

/-! ## C10: usePath -/

/-- C10: in the named utility variant, when the path context value is
null or empty and no browser window exists, `usePath` returns the root
pathname. -/
theorem C10_usePath_root_default (path : Option String)
    (windowPathname : Option String)
    (hp : path = none ∨ path = some "") (hw : windowPathname = none) :
    usePath path windowPathname = "/" := by
  subst hw
  rcases hp with h | h <;> subst h <;> decide

/-- Witness for C10 at the concrete input of a null context and no
window. -/
theorem C10_usePath_root_default_witness : usePath none none = "/" :=
  C10_usePath_root_default none none (Or.inl rfl) rfl

/-! ## C8: request resolver no-op cases -/

/-- C8: when an upstream handler already produced a response the
resolver performs no action at all, and when neither the output route
table nor the exact-path fallback matches it returns leaving the
request untouched. -/
theorem C8_request_noop (ctx : RouterCtx) (req : Req) :
    (req.responseSet = true → requestHandler ctx req = req) ∧
    (ctx.fileRouterMatch req.pathname = none →
     ctx.outputs.find? (fun out =>
       out == nodeJoin (nodeJoin ctx.cwd ctx.outDir) req.pathname) = none →
     requestHandler ctx req = req) := by
  constructor
  · intro h
    simp [requestHandler, h]
  · intro hm hf
    by_cases h : req.responseSet <;> simp [requestHandler, h, hm, hf]

/-- Witness for C8 at a request whose response was already set upstream. -/
theorem C8_request_noop_witness :
    requestHandler demoRouterCtx demoReqHandled = demoReqHandled :=
  (C8_request_noop demoRouterCtx demoReqHandled).1 rfl

/-! ## C2: layout resolver -/

/-- The resolver loop keeps, in probe order, exactly the matches of the
probe paths of the successive nonempty leading segment runs. -/
theorem layoutProbeLoop_eq_filterMap {ρ : Type _} (mtch : String → Option ρ)
    (segs : List String) (pre : List String) :
    layoutProbeLoop mtch (joinSegs pre) segs =
      List.filterMap mtch ((List.range segs.length).map
        (fun i => layoutProbePath (pre ++ segs.take (i + 1)))) := by
  induction segs generalizing pre with
  | nil => simp [layoutProbeLoop]
  | cons p rest ih =>
    have hTest : clientJoin (joinSegs pre) p = joinSegs (pre ++ [p]) :=
      (joinSegs_append_single pre p).symm
    have hProbe : "/" ++ clientJoin (joinSegs (pre ++ [p])) "layout" =
        layoutProbePath (pre ++ [p]) := rfl
    simp only [layoutProbeLoop, hTest, hProbe]
    rw [List.length_cons, List.range_succ_eq_map, List.map_cons, List.map_map,
      List.filterMap_cons]
    have hzero : layoutProbePath (pre ++ (p :: rest).take (0 + 1)) =
        layoutProbePath (pre ++ [p]) := by simp
    have hfun : ((fun i => layoutProbePath (pre ++ (p :: rest).take (i + 1))) ∘
        Nat.succ) = fun i =>
          layoutProbePath ((pre ++ [p]) ++ rest.take (i + 1)) := by
      funext i
      simp [Function.comp, List.take_succ_cons]
    rw [hzero, hfun]
    cases hm : mtch (layoutProbePath (pre ++ [p])) with
    | some m => simp [ih (pre ++ [p])]
    | none => simp [ih (pre ++ [p])]

/-- C2: the layout resolver probes the table root first, then every
leading run of the pathname segments from shortest to longest, keeps
each match in probe order (root to leaf) and silently omits failed
probes; the chain begins with the root layout whenever one is present,
and a root-level page with no layouts yields the empty sequence. -/
theorem C2_layout_resolver {ρ : Type _} (mtch : String → Option ρ)
    (pathname : String) :
    getRelatedLayoutsMatchForPathname mtch pathname =
      layoutsForSpec mtch pathname ∧
    (∀ r, mtch "/layout" = some r →
      (getRelatedLayoutsMatchForPathname mtch pathname).head? = some r) ∧
    (pathname = "/" → mtch "/layout" = none →
      getRelatedLayoutsMatchForPathname mtch pathname = []) := by
  refine ⟨?_, ?_, ?_⟩
  · unfold getRelatedLayoutsMatchForPathname layoutsForSpec
    dsimp only
    rw [List.range_succ_eq_map, List.map_cons, List.map_map,
      List.filterMap_cons]
    have hzero : layoutProbePath ((segsOfPathname pathname).take 0) =
        "/layout" := by
      simp [layoutProbePath, joinSegs, clientJoin]
    have hloop := layoutProbeLoop_eq_filterMap mtch (segsOfPathname pathname) []
    simp only [joinSegs, List.foldl_nil, List.nil_append] at hloop
    rw [hzero]
    have hfun : ((fun i => layoutProbePath ((segsOfPathname pathname).take i)) ∘
        Nat.succ) = fun i =>
          layoutProbePath ((segsOfPathname pathname).take (i + 1)) := by
      funext i
      rfl
    rw [hfun]
    by_cases hempty : segsOfPathname pathname = []
    · rw [hempty]
      cases hm : mtch "/layout" <;> simp [hm]
    · rw [if_neg hempty, hloop]
      cases hm : mtch "/layout" <;> simp [hm]
  · intro r hr
    unfold getRelatedLayoutsMatchForPathname
    dsimp only
    rw [hr]
    by_cases hempty : segsOfPathname pathname = [] <;> simp [hempty]
  · intro hroot hnone
    subst hroot
    have hs : segsOfPathname "/" = [] := by decide
    unfold getRelatedLayoutsMatchForPathname
    dsimp only
    rw [hnone, hs]
    rfl

/-- Witness for C2 at the demo source tree: the chain for `/about`
begins with the root layout found by the root probe. -/
theorem C2_layout_resolver_witness :
    (getRelatedLayoutsMatchForPathname
      (srcFileRouterMatch demoSrcRoot demoSrcFiles) "/about").head? =
      some "/app/src/pages/layout.tsx" :=
  (C2_layout_resolver (srcFileRouterMatch demoSrcRoot demoSrcFiles) "/about").2.1
    "/app/src/pages/layout.tsx" (by decide)

/-! ## C6: content type by extension -/

/-- C6: for every file path, the content type the plugin derives from
the extension equals the lookup in the exact specification table, with
every unlisted extension mapping to `application/octet-stream`. -/
theorem C6_mime_by_extension (filePath : String) :
    filePathToMimeType filePath =
      mimeOfExtSpec ((jsSplitChar '.' filePath).getLastD "") := by
  unfold filePathToMimeType mimeOfExtSpec mimeTableSpec
  dsimp only
  set e := (jsSplitChar '.' filePath).getLastD "" with he
  by_cases h1 : e = "html"
  · simp [h1, List.lookup]
  by_cases h2 : e = "js"
  · simp [h1, h2, List.lookup]
  by_cases h3 : e = "css"
  · simp [h1, h2, h3, List.lookup]
  by_cases h4 : e = "json"
  · simp [h1, h2, h3, h4, List.lookup]
  by_cases h5 : e = "png"
  · simp [h1, h2, h3, h4, h5, List.lookup]
  by_cases h6 : e = "jpg"
  · simp [h1, h2, h3, h4, h5, h6, List.lookup]
  by_cases h7 : e = "jpeg"
  · simp [h1, h2, h3, h4, h5, h6, h7, List.lookup]
  by_cases h8 : e = "svg"
  · simp [h1, h2, h3, h4, h5, h6, h7, h8, List.lookup]
  have b1 : (e == "html") = false := beq_eq_false_iff_ne.mpr h1
  have b2 : (e == "js") = false := beq_eq_false_iff_ne.mpr h2
  have b3 : (e == "css") = false := beq_eq_false_iff_ne.mpr h3
  have b4 : (e == "json") = false := beq_eq_false_iff_ne.mpr h4
  have b5 : (e == "png") = false := beq_eq_false_iff_ne.mpr h5
  have b6 : (e == "jpg") = false := beq_eq_false_iff_ne.mpr h6
  have b7 : (e == "jpeg") = false := beq_eq_false_iff_ne.mpr h7
  have b8 : (e == "svg") = false := beq_eq_false_iff_ne.mpr h8
  simp [h1, h2, h3, h4, h5, h6, h7, h8, b1, b2, b3, b4, b5, b6, b7, b8,
    List.lookup]

/-! ## C7: request resolution -/

/-- C7: on a fresh request, the resolver produces exactly the
specification outcome: an output-route-table match is returned streamed
with content type `text/html`; otherwise the fallback artifact whose
path exactly equals the computed output path is returned with its
content type derived by extension, streamed when `text/html` and whole
otherwise; no match leaves body and content type unset. -/
theorem C7_request_resolution (ctx : RouterCtx) (req : Req)
    (h1 : req.responseSet = false) (h2 : req.responseBody = none)
    (h3 : req.contentType = none) :
    (requestHandler ctx req).responseBody =
      (resolveSpec ctx req.pathname).map (fun x => x.1) ∧
    (requestHandler ctx req).contentType =
      (resolveSpec ctx req.pathname).map (fun x => x.2) := by
  unfold requestHandler resolveSpec
  dsimp only
  rw [h1]
  cases hm : ctx.fileRouterMatch req.pathname with
  | some m => simp
  | none =>
    cases hf : ctx.outputs.find? (fun out =>
        out == nodeJoin (nodeJoin ctx.cwd ctx.outDir) req.pathname) with
    | some f => simp
    | none => simp [h2, h3]

/-- Witness for C7 at the demo environment and a fresh request for the
routed page. -/
theorem C7_request_resolution_witness :
    (requestHandler demoRouterCtx demoReq).responseBody =
      (resolveSpec demoRouterCtx demoReq.pathname).map (fun x => x.1) ∧
    (requestHandler demoRouterCtx demoReq).contentType =
      (resolveSpec demoRouterCtx demoReq.pathname).map (fun x => x.2) :=
  C7_request_resolution demoRouterCtx demoReq rfl rfl rfl

/-! ## C4: layout files and the source route table

The claim that the source route table never contains a layout-file
entry fails on the code: the nextjs-style file-system router maps every
recognized source file, layout files included, and the plugin depends on
that — `srcFileRouter.match("/layout")` is how the layout resolver finds
the root layout, and the variant-2 build config has to filter layout
files back out of the route values. -/

/-- C4 counterexample: in the demo source tree the source route table
contains the entry `/layout` mapping to the root layout file, a file
using the reserved layout filename, and the layout resolver finds both
layouts through exactly these table entries. -/
theorem C4_counterexample :
    ("/layout", "/app/src/pages/layout.tsx") ∈
      srcFileRouterRoutes demoSrcRoot demoSrcFiles ∧
    strEndsWith "/app/src/pages/layout.tsx" "layout.tsx" = true ∧
    getRelatedLayoutsMatchForPathname
      (srcFileRouterMatch demoSrcRoot demoSrcFiles) "/about" =
      ["/app/src/pages/layout.tsx", "/app/src/pages/about/layout.tsx"] := by
  decide

/-- Joining `clientJoin a b` always ends with `b`. -/
theorem strEndsWith_clientJoin (a b : String) :
    strEndsWith (clientJoin a b) b = true := by
  unfold clientJoin
  by_cases ha : a = ""
  · simp [ha, strEndsWith]
  by_cases hb : b = ""
  · simp [ha, hb, strEndsWith]
  · simp only [if_neg ha, if_neg hb]
    simp only [strEndsWith, String.toList, String.data_append,
      decide_eq_true_eq]
    have h := List.suffix_append (a.data ++ "/".data) b.data
    simpa [List.append_assoc] using h

/-- A string suffix survives prepending. -/
theorem strEndsWith_append_left (a b c : String)
    (h : strEndsWith b c = true) : strEndsWith (a ++ b) c = true := by
  simp only [strEndsWith, decide_eq_true_eq, String.toList] at h ⊢
  rw [String.data_append]
  exact h.trans (List.suffix_append a.data b.data)

/-- C4 amended: the source route table contains an entry for every
layout file in the scanned tree — its derived pathname mapped to the
layout source path, whose file name uses the reserved layout filename —
rather than excluding them. -/
theorem C4_amended_layout_entries (srcRoot : String) (fs : List SrcFile)
    (f : SrcFile) (hf : f ∈ fs) (hbase : f.base = "layout") :
    (routePathnameOf f, srcFilePathOf srcRoot f) ∈
      srcFileRouterRoutes srcRoot fs ∧
    strEndsWith (srcFilePathOf srcRoot f) ("layout." ++ f.fext) = true := by
  constructor
  · exact List.mem_map_of_mem _ hf
  · unfold srcFilePathOf
    have hdot : ("layout" ++ "." : String) = "layout." := by decide
    have hx : f.base ++ "." ++ f.fext = "layout." ++ f.fext := by
      rw [hbase, hdot]
    rw [hx, joinSegs_append_single]
    exact strEndsWith_append_left _ _ _ (strEndsWith_clientJoin _ _)

/-- Witness for the amended C4 at the `about` layout file of the demo
tree. -/
theorem C4_amended_witness :
    (routePathnameOf ⟨["about"], "layout", "tsx"⟩,
     srcFilePathOf demoSrcRoot ⟨["about"], "layout", "tsx"⟩) ∈
      srcFileRouterRoutes demoSrcRoot demoSrcFiles ∧
    strEndsWith (srcFilePathOf demoSrcRoot ⟨["about"], "layout", "tsx"⟩)
      ("layout." ++ "tsx") = true :=
  C4_amended_layout_entries demoSrcRoot demoSrcFiles
    ⟨["about"], "layout", "tsx"⟩ (by decide) rfl

/-! ## C5: build entrypoints

The claim fails for the variant-1 build config, whose entrypoint list is
the unfiltered route values: layout files are passed to the build
pipeline as entrypoints there and only neutralized afterwards by the
`onLoad` short circuit.  Variant 2 does filter them out. -/

/-- C5 counterexample: the variant-1 entrypoint set for the demo tree
contains the root layout source file, a path ending in the reserved
layout filename. -/
theorem C5_counterexample :
    "/app/src/pages/layout.tsx" ∈
      buildConfigEntrypointsV1 (srcFileRouterRoutes demoSrcRoot demoSrcFiles) ∧
    isLayoutSourceFile "/app/src/pages/layout.tsx" = true := by
  decide

/-- C5 amended: the variant-2 entrypoint set excludes layout files —
every entrypoint derives from a non-layout route value — while variant 1
includes layout files among its entrypoints but neutralizes each of them
at load time into the empty module, so layouts are never built as
independent routes. -/
theorem C5_amended_entrypoints (srcDir : String)
    (routes : List (String × String)) :
    (∀ e ∈ buildConfigEntrypointsV2 srcDir routes,
      ∃ fp ∈ routes.map (fun x => x.2), isLayoutSourceFile fp = false ∧
        e = (jsSplitStr srcDir fp).getLastD "" ++ "?entrypoint=true") ∧
    (∀ p, isLayoutSourceFile p = true →
      onLoadLayoutShortCircuitV1 p = some ("", "js")) := by
  constructor
  · intro e he
    simp only [buildConfigEntrypointsV2, List.mem_map] at he
    obtain ⟨fp, hfp, rfl⟩ := he
    simp only [List.mem_filter] at hfp
    exact ⟨fp, hfp.1, by simpa using hfp.2, rfl⟩
  · intro p hp
    simp [onLoadLayoutShortCircuitV1, hp]

/-- Witness for the amended C5: the variant-1 load short circuit
neutralizes a concrete layout file. -/
theorem C5_amended_witness :
    onLoadLayoutShortCircuitV1 "/app/src/pages/layout.jsx" = some ("", "js") :=
  (C5_amended_entrypoints "src/pages" []).2 "/app/src/pages/layout.jsx"
    (by decide)
